import Mathlib

/-!
Shallow embedding of the process-supervision / device-arbitration core of
`src/stream_manager.py` (the stream-manager application), together with
theorems settling the specification claims about it.

The embedding strategy:
* Python strings are Lean `String`s; where kernel evaluation matters the
  character-level operations (`strip`, `replace`, `split`, substring tests)
  are implemented over `List Char`.
* Fallible Python code (raising exceptions) is embedded with `Except PyError`.
* Qt widget state read by the logic (combo boxes, checkboxes, text fields)
  is embedded as plain data: an editable combo used only through
  `currentText` becomes a `String`; the two device combos (selection only)
  become a `Combo` of (label, userData) items plus a current index.
* Subprocess interaction is abstracted to the booleans the control flow
  actually branches on (process exists / alive, executable exists, launch
  succeeds), and the emitted log / terminal events are collected in lists.
-/

namespace StreamManager

/-- Errors raised by the embedded Python code paths that the claims touch:
`attributeError` for attribute lookups on a missing attribute and
`valueError` for failed `int()` conversions. -/
inductive PyError where
  | attributeError
  | valueError
deriving DecidableEq, Repr

/-- Python truthy-relevant whitespace for `str.strip()` / `int()`
(approximated by the four common ASCII whitespace characters). -/
def pyWs (c : Char) : Bool :=
  c = ' ' || c = '\t' || c = '\n' || c = '\r'

/-- Embedding of Python `str.strip()`: drop whitespace from both ends. -/
def pyStrip (s : String) : String :=
  String.mk (((s.data.dropWhile pyWs).reverse.dropWhile pyWs).reverse)

/-- Core of Python `int(s)` on an already-stripped character list:
an optional sign followed by a nonempty run of decimal digits; anything
else raises `ValueError`. -/
def pyToIntCore (l : List Char) : Except PyError Int :=
  let (sgn, digits) : Int × List Char :=
    match l with
    | '-' :: rest => (-1, rest)
    | '+' :: rest => (1, rest)
    | rest => (1, rest)
  if digits ≠ [] ∧ digits.all Char.isDigit then
    .ok (sgn * (digits.foldl (fun acc c => acc * 10 + (c.toNat - '0'.toNat)) 0 : Nat))
  else
    .error .valueError

/-- Embedding of Python `int(s)` for a decimal string (whitespace is
stripped first, as Python does). -/
def pyToInt (s : String) : Except PyError Int :=
  pyToIntCore (pyStrip s).data

/-- Embedding of Python `s.replace("k", "")`: remove every `'k'`. -/
def stripK (s : String) : String :=
  String.mk (s.data.filter (fun c => c ≠ 'k'))

/-- Boolean test for contiguous-sublist containment of `p` in `l`. -/
def subOf (p : List Char) : List Char → Bool
  | [] => p.isEmpty
  | x :: xs => p.isPrefixOf (x :: xs) || subOf p xs

/-- Embedding of Python `sub in line` (substring containment) over the
character lists of the two strings. -/
def pyIn (sub line : String) : Bool :=
  subOf sub.data line.data

/-- Embedding of Python `line.split(c)` for a single-character separator. -/
def pySplit (c : Char) : List Char → List (List Char)
  | [] => [[]]
  | x :: xs =>
    let r := pySplit c xs
    if x = c then [] :: r
    else
      match r with
      | [] => [[x]]
      | h :: t => (x :: h) :: t

/-- Embedding of `os.path.join(a, b)` on Windows (the program targets
Windows): the two components joined by a backslash. -/
def pyJoin (a b : String) : String :=
  a ++ "\\" ++ b

/-- Embedding of the `safe_name` computation
`channel_name.replace(" ", "").lower()` (spaces stripped, lowercased). -/
def safeName (s : String) : String :=
  String.mk ((s.data.filter (fun c => c ≠ ' ')).map Char.toLower)

/-- Embedding of Python string interpolation of an optional value:
`None` formats as the string `"None"`. -/
def optStr : Option String → String
  | none => "None"
  | some s => s

/-! ## DeviceCatalog: `list_media_devices` (src/stream_manager.py lines 17-102)

The function feeds ffmpeg's diagnostic output line by line through a small
state machine.  The embedding keeps the two device lists, the current
section (`current_device_type`) and which of the two lists the Python
variable `last_device_list` aliases (`none` before any assignment). -/

/-- One parsed capture device: friendly `name` and stable `alt` identifier
(`{'name': ..., 'alt': ...}` in the source). -/
structure Device where
  name : String
  alt : String
deriving DecidableEq, Repr

/-- The two device kinds distinguished by the parser. -/
inductive DevKind where
  | video
  | audio
deriving DecidableEq, Repr

/-- Parser state for `list_media_devices`: the two result lists, the
section header last seen (`current_device_type`) and the list currently
aliased by `last_device_list`. -/
structure ParseState where
  video : List Device
  audio : List Device
  current : Option DevKind
  last : Option DevKind
deriving DecidableEq, Repr

/-- The list of the given kind in a parse state. -/
def ParseState.listOf (st : ParseState) : DevKind → List Device
  | .video => st.video
  | .audio => st.audio

/-- Python truthiness of `last_device_list`: it must be bound and alias a
nonempty list. -/
def lastTruthy (st : ParseState) : Bool :=
  match st.last with
  | none => false
  | some k => !(st.listOf k).isEmpty

/-- Overwrite the `alt` field of the last element of a device list
(`last_device_list[-1]['alt'] = alt_name`). -/
def setAltLast : List Device → String → List Device
  | [], _ => []
  | [d], a => [{ d with alt := a }]
  | d :: rest, a => d :: setAltLast rest a

/-- Replace the list of the given kind. -/
def ParseState.withList (st : ParseState) : DevKind → List Device → ParseState
  | .video, l => { st with video := l }
  | .audio, l => { st with audio := l }

/-- Append a freshly opened device record (`alt` defaulting to `name`) to
the list of kind `k` and point `last_device_list` at that list. -/
def appendDev (st : ParseState) (k : DevKind) (name : String) : ParseState :=
  { st.withList k (st.listOf k ++ [⟨name, name⟩]) with last := some k }

/-- The list a quoted device line is appended to (src/stream_manager.py
lines 78-86): an explicit `(video)`/`(audio)` tag wins, otherwise the
current section, otherwise none. -/
def targetOf (st : ParseState) (line : String) : Option DevKind :=
  if pyIn "(video)" line then some .video
  else if pyIn "(audio)" line then some .audio
  else st.current

/-- One iteration of the parsing loop of `list_media_devices`
(src/stream_manager.py lines 49-93), for a single line of ffmpeg output. -/
def processLine (st : ParseState) (line : String) : ParseState :=
  if pyIn "DirectShow video devices" line then
    { st with current := some .video, last := some .video }
  else if pyIn "DirectShow audio devices" line then
    { st with current := some .audio, last := some .audio }
  else if pyIn "Alternative name" line && lastTruthy st then
    -- lines 61-69: overwrite the alt of the most recently appended record
    if pyIn "\"" line then
      match (pySplit '"' line.data).get? 1 with
      | some altChars =>
        match st.last with
        | some k => st.withList k (setAltLast (st.listOf k) (String.mk altChars))
        | none => st
      | none => st
    else st
  else if pyIn "\"" line then
    -- lines 72-93: a quoted line opens a new device record
    match (pySplit '"' line.data).get? 1 with
    | some nameChars =>
      match targetOf st line with
      | some k => appendDev st k (String.mk nameChars)
      | none => st
    | none => st
  else st

/-- The initial parser state (empty lists, no section seen). -/
def initParse : ParseState := ⟨[], [], none, none⟩

/-- The whole parsing loop of `list_media_devices` over the (already
line-split) diagnostic output. -/
def listMediaDevices (lines : List String) : ParseState :=
  lines.foldl processLine initParse

/-! ## FFmpegWorker (src/stream_manager.py lines 106-177)

The worker owns one encoder subprocess.  The embedding keeps the two
booleans the control flow branches on (`self.running`, and whether
`self.process` is set and alive) and records the emitted Qt signals
(`log_message`, `process_finished`) as an event list. -/

/-- A Qt signal emission observable from the worker. -/
inductive WEvent where
  | log (msg : String)
  | finished (code : Int)
deriving DecidableEq, Repr

/-- The worker state fields read by `stop()` and by the tail of `run()`:
the `running` flag, whether `self.process` is a live process
(`poll() is None`), and whether `self.process` is set at all. -/
structure WorkerState where
  running : Bool
  procAlive : Bool
  hasProc : Bool
deriving DecidableEq, Repr

/-- Outcome of the graceful-stop attempt inside `stop()`: the `q` write
and five-second wait succeed, or the wait times out, or writing raises
(pipe already closed). -/
inductive StopOutcome where
  | graceful
  | timeout
  | writeError
deriving DecidableEq, Repr

/-- Embedding of `FFmpegWorker.stop` (src/stream_manager.py lines 160-177):
clear `running`, optionally shut the process down (logging along the way),
and unconditionally emit `process_finished(0)` at the end. -/
def workerStop (w : WorkerState) (oc : StopOutcome) : WorkerState × List WEvent :=
  let w1 : WorkerState := { w with running := false }
  if w.hasProc ∧ w.procAlive then
    let evs : List WEvent :=
      [.log "Stopping FFmpeg process..."] ++
      (match oc with
       | .graceful => []
       | .timeout => [.log "FFmpeg did not stop gracefully, terminating."]
       | .writeError => [.log "Error stopping FFmpeg: <exception>"]) ++
      [.log "FFmpeg process stopped."]
    ({ w1 with hasProc := false, procAlive := false }, evs ++ [.finished 0])
  else
    (w1, [.finished 0])

/-- Embedding of the tail of `FFmpegWorker.run` after the merged output
stream closes (src/stream_manager.py lines 146-149): the terminal
`process_finished(return_code)` is emitted only if `running` is still
set, i.e. only when no stop was requested. -/
def readerFinish (w : WorkerState) (code : Int) : List WEvent :=
  if w.running then [.finished code] else []

/-- Embedding of `FFmpegWorker.run` when no stop request interferes
(src/stream_manager.py lines 120-158): on a spawn failure
(`FileNotFoundError`) the error is logged once and a terminal event with
the sentinel code `-1` is emitted; otherwise every stripped output line is
logged and the terminal event carries the process exit code. -/
def workerRun (spawnOk : Bool) (outLines : List String) (code : Int) : List WEvent :=
  if ¬ spawnOk then
    [.log "Error: ffmpeg.exe not found. Please check the path.", .finished (-1)]
  else
    outLines.map (fun l => .log (pyStrip l)) ++ [.finished code]

/-! ## StreamTab widget state (src/stream_manager.py lines 181-515)

The supervisor logic reads a tab's widgets directly.  The two device
combo boxes are selection-only: each is a list of (label, userData) items
plus a current index (`none` models Qt's index -1 of an empty combo).
The editable combos (size, framerate, bitrates) are read only through
`currentText` and so are embedded as plain strings. -/

/-- A non-editable Qt combo box: items carry a display label and a
userData payload (the device's alternative name). -/
structure Combo where
  items : List (String × String)
  idx : Option Nat
deriving DecidableEq, Repr

/-- Qt `currentData()`: the userData of the current item, `None` when no
item is current. -/
def comboData (c : Combo) : Option String :=
  c.idx.bind fun i => (c.items.get? i).map (·.2)

/-- Qt `currentText()`: the label of the current item, `""` when no item
is current. -/
def comboText (c : Combo) : String :=
  ((c.idx.bind fun i => (c.items.get? i).map (·.1))).getD ""

/-- Index of the first item satisfying a predicate (the search behind
Qt's `findData`/`findText`; `none` models Qt's -1). -/
def qtFindIndex (p : (String × String) → Bool) : List (String × String) → Option Nat
  | [] => none
  | x :: xs => if p x then some 0 else (qtFindIndex p xs).map (· + 1)

/-- Qt `findData(a)`: index of the first item whose userData is `a`. -/
def comboFindData (c : Combo) (a : String) : Option Nat :=
  qtFindIndex (fun p => p.2 = a) c.items

/-- Qt `findText(s)` with the default exact matching: index of the first
item whose label is `s`. -/
def comboFindText (c : Combo) (s : String) : Option Nat :=
  qtFindIndex (fun p => p.1 = s) c.items

/-- The device catalog a `populate_devices` call sees (the result of
`list_media_devices`). -/
structure Catalog where
  video : List Device
  audio : List Device
deriving DecidableEq, Repr

/-- The combo items built by `populate_devices` (lines 288-294): labels
`f"{dev['name']}  [#{i}]"` with 1-based display index, userData the alt
name. -/
def mkItems (cat : List Device) : List (String × String) :=
  cat.enum.map (fun p => (p.2.name ++ "  [#" ++ toString (p.1 + 1) ++ "]", p.2.alt))

/-- Embedding of `populate_devices` (lines 275-304) for one device combo:
no-op when the ffmpeg executable is missing; otherwise remember the
current text, rebuild the items from the catalog (Qt makes item 0 current
when items are added to an empty combo), and restore the selection by
exact text match when possible. -/
def populateCombo (ffmpegExists : Bool) (cat : List Device) (c : Combo) : Combo :=
  if ¬ ffmpegExists then c
  else
    let prev := comboText c
    let items := mkItems cat
    let idx0 : Option Nat := if items.isEmpty then none else some 0
    let idx : Option Nat :=
      match qtFindIndex (fun p => p.1 = prev) items with
      | some k => some k
      | none => idx0
    ⟨items, idx⟩

/-- The widget state of one `StreamTab` that the supervisor logic reads. -/
structure Tab where
  channel_name : String
  video_combo : Combo
  audio_combo : Combo
  video_size : String
  framerate : String
  video_bitrate : String
  audio_bitrate : String
  auto_start : Bool
  is_streaming : Bool
deriving DecidableEq, Repr

/-- The persisted per-channel configuration record produced by
`StreamTab.get_config` (lines 483-495). -/
structure ChannelConfig where
  channel_name : String
  video_device_alt : Option String
  audio_device_alt : Option String
  video_device_label : String
  audio_device_label : String
  video_size : String
  framerate : String
  video_bitrate : String
  audio_bitrate : String
  auto_start : Bool
deriving DecidableEq, Repr

namespace StreamTab

/-- A freshly constructed `StreamTab` (lines 182-269): empty device
combos populated once from the catalog, the editable combos showing their
first predefined item, auto-start off, not streaming. -/
def new (ffmpegExists : Bool) (cat : Catalog) (name : String) : Tab :=
  { channel_name := name
    video_combo := populateCombo ffmpegExists cat.video ⟨[], none⟩
    audio_combo := populateCombo ffmpegExists cat.audio ⟨[], none⟩
    video_size := "1920x1080"
    framerate := "60"
    video_bitrate := "6000k"
    audio_bitrate := "192k"
    auto_start := false
    is_streaming := false }

/-- Embedding of `StreamTab.get_config` (lines 483-495). -/
def get_config (t : Tab) : ChannelConfig :=
  { channel_name := t.channel_name
    video_device_alt := comboData t.video_combo
    audio_device_alt := comboData t.audio_combo
    video_device_label := comboText t.video_combo
    audio_device_label := comboText t.audio_combo
    video_size := t.video_size
    framerate := t.framerate
    video_bitrate := t.video_bitrate
    audio_bitrate := t.audio_bitrate
    auto_start := t.auto_start }

/-- Embedding of `StreamTab.load_config` (lines 497-515): repopulate the
device combos, copy the editable fields, then restore each device
selection by `findData` when the saved alt id is truthy and present.
(The snapshot records produced by `get_config` always carry every key, so
the dictionary defaults of the source are not exercised here.) -/
def load_config (ffmpegExists : Bool) (cat : Catalog) (t : Tab) (c : ChannelConfig) : Tab :=
  let t := { t with
    video_combo := populateCombo ffmpegExists cat.video t.video_combo
    audio_combo := populateCombo ffmpegExists cat.audio t.audio_combo }
  let t := { t with
    video_size := c.video_size
    framerate := c.framerate
    video_bitrate := c.video_bitrate
    audio_bitrate := c.audio_bitrate
    auto_start := c.auto_start }
  let t :=
    match c.video_device_alt with
    | some a =>
      if a ≠ "" then
        match comboFindData t.video_combo a with
        | some i => { t with video_combo := { t.video_combo with idx := some i } }
        | none => t
      else t
    | none => t
  match c.audio_device_alt with
  | some a =>
    if a ≠ "" then
      match comboFindData t.audio_combo a with
      | some i => { t with audio_combo := { t.audio_combo with idx := some i } }
      | none => t
    else t
  | none => t

end StreamTab

instance : Inhabited Tab := ⟨StreamTab.new false ⟨[], []⟩ ""⟩

/-! ## build_ffmpeg_command (src/stream_manager.py lines 412-480)

The command builder is deterministic in the tab's widget values.  Its two
failure modes both raise: when the ffmpeg executable does not exist the
source evaluates `self.log_message.emit(...)` on the `StreamTab`, which
has no `log_message` attribute (that signal is defined on `FFmpegWorker`;
the tab's logger is `self.log`), so an `AttributeError` is raised; and a
non-empty non-numeric framerate or bitrate makes `int()` raise
`ValueError`. -/

def build_ffmpeg_command (ffmpegExists : Bool) (ffmpeg_exe : String) (t : Tab)
    (output_dir : String) : Except PyError (List String) :=
  if ¬ ffmpegExists then
    -- line 415: `self.log_message.emit(...)` raises AttributeError
    .error .attributeError
  else
    -- line 454: `fps = int(self.input_framerate.currentText() or 25)`
    match (if t.framerate = "" then .ok 25 else pyToInt t.framerate : Except PyError Int) with
    | .error e => .error e
    | .ok fps =>
    -- line 455: `bufsize = str(int(bitrate.replace('k', '')) * 2) + 'k'`
    match pyToInt (stripK t.video_bitrate) with
    | .error e => .error e
    | .ok bn =>
    let bitrate := t.video_bitrate
    let bufsize := toString (bn * 2) ++ "k"
    let gop := fps * 2
    .ok <|
      [ffmpeg_exe, "-hide_banner", "-loglevel", "info", "-f", "dshow",
       "-rtbufsize", "512M"] ++
      (if pyStrip t.framerate ≠ "" then ["-framerate", pyStrip t.framerate] else []) ++
      ["-thread_queue_size", "1024",
       "-i", "video=" ++ optStr (comboData t.video_combo) ++ ":audio=" ++
             optStr (comboData t.audio_combo),
       "-map", "0:v:0", "-map", "0:a:0",
       "-c:v", "libx264", "-preset", "superfast", "-tune", "zerolatency",
       "-profile:v", "baseline", "-level", "3.1", "-pix_fmt", "yuv420p",
       "-fps_mode", "cfr"] ++
      (if pyStrip t.video_size ≠ "" then
        ["-vf", "scale=" ++ pyStrip t.video_size ++ ":flags=lanczos"]
      else []) ++
      ["-b:v", bitrate, "-maxrate", bitrate, "-bufsize", bufsize,
       "-g", toString gop, "-keyint_min", toString gop,
       "-c:a", "aac", "-b:a", t.audio_bitrate, "-ar", "44100",
       "-f", "hls", "-hls_time", "2", "-hls_list_size", "6",
       "-hls_flags", "delete_segments+program_date_time+independent_segments",
       "-hls_segment_filename", pyJoin output_dir "segment_%d.ts",
       pyJoin output_dir "index.m3u8"]

/-! ## StreamManagerApp (src/stream_manager.py lines 518-928) -/

/-- The application state the supervision logic reads and writes: the tab
list, whether the nginx child process is set and alive, and the
environment facts the control flow branches on (executables present,
launches succeed, output directory creatable). -/
structure AppState where
  tabs : List Tab
  nginxRunning : Bool
  nginxExists : Bool
  nginxLaunchOk : Bool
  ffmpegExists : Bool
  ffmpeg_exe : String
  hlsOk : Bool
  hls_root : String
deriving DecidableEq, Repr

namespace StreamManagerApp

/-- Helper for `is_video_device_in_use`: walk the tab list with its
position, skipping the requesting tab (object identity in the source,
position here), and return the name of the first streaming tab whose
video combo userData equals the requested alt. -/
def findUse (alt : Option String) (cur : Nat) : List Tab → Nat → Option String
  | [], _ => none
  | t :: ts, i =>
    if i ≠ cur ∧ t.is_streaming ∧ comboData t.video_combo = alt then some t.channel_name
    else findUse alt cur ts (i + 1)

/-- Embedding of `StreamManagerApp.is_video_device_in_use` (lines
922-928). -/
def is_video_device_in_use (tabs : List Tab) (alt : Option String) (cur : Nat) : Option String :=
  findUse alt cur tabs 0

/-- Embedding of `StreamManagerApp.ensure_nginx_running` (lines 784-812):
a no-op when the tracked nginx process is alive; otherwise fail when the
executable is missing or the launch raises, else (after killing strays)
start a fresh instance. -/
def ensure_nginx_running (s : AppState) : Bool × AppState :=
  if s.nginxRunning then (true, s)
  else if ¬ s.nginxExists then (false, s)
  else if ¬ s.nginxLaunchOk then (false, s)
  else (true, { s with nginxRunning := true })

/-- Embedding of `StreamManagerApp.check_and_stop_nginx` (lines 881-900):
stop and forget the nginx process when no tab is streaming. -/
def check_and_stop_nginx (s : AppState) : AppState :=
  if ¬ (s.tabs.any (·.is_streaming)) ∧ s.nginxRunning then
    { s with nginxRunning := false }
  else s

/-- Result of a `start_stream` call as observable by the caller:
success, the early returns, or an exception escaping the handler. -/
inductive StartResult where
  | ok
  | nginxUnavailable
  | deviceInUse (owner : String)
  | dirError
  | exn (e : PyError)
deriving DecidableEq, Repr

/-- Embedding of `StreamTab.start_stream` (lines 322-361): ensure nginx,
check the requested video device against every other tab, create the
output directory, build the command, then launch the worker and mark the
tab streaming.  A `PyError` raised by `build_ffmpeg_command` propagates
out of `start_stream` (there is no handler), modelled as `.exn`. -/
def start_stream (s : AppState) (i : Nat) : StartResult × AppState :=
  match ensure_nginx_running s with
  | (false, s1) => (.nginxUnavailable, s1)
  | (true, s1) =>
    let t := s1.tabs.getD i default
    match is_video_device_in_use s1.tabs (comboData t.video_combo) i with
    | some owner => (.deviceInUse owner, s1)
    | none =>
      if ¬ s1.hlsOk then (.dirError, s1)
      else
        match build_ffmpeg_command s1.ffmpegExists s1.ffmpeg_exe t
            (pyJoin s1.hls_root (safeName t.channel_name)) with
        | .error e => (.exn e, s1)
        | .ok _ => (.ok, { s1 with tabs := s1.tabs.set i { t with is_streaming := true } })

/-- Embedding of `StreamTab.stop_stream` (lines 363-383) at the
application-state level: mark the tab idle (the worker stop and the
segment-file cleanup do not touch this state) and re-evaluate whether
nginx should now stop. -/
def stop_stream (s : AppState) (i : Nat) : AppState :=
  let t := s.tabs.getD i default
  let s1 := { s with tabs := s.tabs.set i { t with is_streaming := false } }
  check_and_stop_nginx s1

/-- Embedding of `StreamManagerApp.add_new_tab` (lines 746-758): pick the
generated name when the given one is falsy, build a fresh tab, load the
config into it when one is given, and append it. -/
def add_new_tab (ffmpegExists : Bool) (cat : Catalog) (tabs : List Tab)
    (name : Option String) (config : Option ChannelConfig) : List Tab :=
  let nm :=
    match name with
    | none => "Channel " ++ toString (tabs.length + 1)
    | some n => if n = "" then "Channel " ++ toString (tabs.length + 1) else n
  let tab := StreamTab.new ffmpegExists cat nm
  let tab :=
    match config with
    | some c => StreamTab.load_config ffmpegExists cat tab c
    | none => tab
  tabs ++ [tab]

/-- The snapshot taken by `StreamManagerApp.save_config` (line 861): the
live per-tab configs. -/
def snapshot (tabs : List Tab) : List ChannelConfig :=
  tabs.map StreamTab.get_config

/-- The restore pass of `StreamManagerApp.load_config` (lines 840-847):
re-create one tab per persisted stream record via `add_new_tab`. -/
def load_streams (ffmpegExists : Bool) (cat : Catalog) (streams : List ChannelConfig) : List Tab :=
  streams.foldl (fun tabs c => add_new_tab ffmpegExists cat tabs (some c.channel_name) (some c)) []

end StreamManagerApp

theorem pySplit_ne_nil (c : Char) (l : List Char) : pySplit c l ≠ [] := by
  induction l with
  | nil => simp [pySplit]
  | cons x xs ih =>
    simp only [pySplit]
    by_cases h : x = c
    · simp [h]
    · simp only [if_neg h]
      cases hr : pySplit c xs with
      | nil => simp
      | cons a b => simp

/-! ## Helper lemmas -/

theorem pyToInt_eq_core (s : String) : pyToInt s = pyToIntCore (pyStrip s).data := rfl

/-- A string that `int()` accepts does not strip to a given string that
`int()` rejects. -/
theorem pyStrip_ne_of_ok {s v : String} {n : Int}
    (h : pyToInt s = Except.ok n) (hv : pyToIntCore v.data = Except.error .valueError) :
    pyStrip s ≠ v := by
  intro he
  rw [pyToInt_eq_core, he, hv] at h
  cases h

/-- A string that `int()` accepts does not strip to the empty string. -/
theorem pyStrip_ne_empty_of_ok {s : String} {n : Int}
    (h : pyToInt s = Except.ok n) : pyStrip s ≠ "" :=
  pyStrip_ne_of_ok h rfl

/-- Two-element contiguous-sublist test used to reason about the absence
of an option/value pair in a command line. -/
def hasPair (x y : String) : List String → Bool
  | a :: b :: rest => if a = x ∧ b = y then true else hasPair x y (b :: rest)
  | _ => false

theorem hasPair_iff (x y : String) : ∀ l : List String,
    hasPair x y l = true ↔ [x, y] <:+: l
  | [] => by
    simp only [hasPair]
    constructor
    · intro h; cases h
    · rintro ⟨s, t, h⟩; simp at h
  | [a] => by
    simp only [hasPair]
    constructor
    · intro h; cases h
    · rintro ⟨s, t, h⟩
      have := congrArg List.length h
      simp at this
      omega
  | a :: b :: rest => by
    simp only [hasPair]
    by_cases hxy : a = x ∧ b = y
    · simp only [if_pos hxy]
      constructor
      · intro _
        exact ⟨[], rest, by simp [hxy.1, hxy.2]⟩
      · intro _; trivial
    · simp only [if_neg hxy]
      rw [hasPair_iff x y (b :: rest)]
      constructor
      · exact fun h => List.infix_cons h
      · intro h
        rcases List.infix_cons_iff.mp h with hpre | hinf
        · rcases hpre with ⟨t, ht⟩
          simp at ht
          exact absurd ⟨ht.1.symm, ht.2.1.symm⟩ hxy
        · exact hinf

/-! ### Device-arbitration helper lemmas -/

namespace StreamManagerApp

/-- The tab list, and every field other than `nginxRunning`, are
untouched by `ensure_nginx_running`. -/
theorem ensure_tabs (s : AppState) : (ensure_nginx_running s).2.tabs = s.tabs := by
  unfold ensure_nginx_running
  split_ifs <;> rfl

theorem ensure_hlsOk (s : AppState) : (ensure_nginx_running s).2.hlsOk = s.hlsOk := by
  unfold ensure_nginx_running
  split_ifs <;> rfl

theorem ensure_ffmpegExists (s : AppState) :
    (ensure_nginx_running s).2.ffmpegExists = s.ffmpegExists := by
  unfold ensure_nginx_running
  split_ifs <;> rfl

theorem ensure_ffmpeg_exe (s : AppState) :
    (ensure_nginx_running s).2.ffmpeg_exe = s.ffmpeg_exe := by
  unfold ensure_nginx_running
  split_ifs <;> rfl

theorem ensure_hls_root (s : AppState) :
    (ensure_nginx_running s).2.hls_root = s.hls_root := by
  unfold ensure_nginx_running
  split_ifs <;> rfl

/-- When `ensure_nginx_running` reports success the nginx process is
running afterwards. -/
theorem ensure_running_of_ok (s : AppState) (h : (ensure_nginx_running s).1 = true) :
    (ensure_nginx_running s).2.nginxRunning = true := by
  unfold ensure_nginx_running at h ⊢
  split_ifs at h ⊢ with h1 h2 h3 <;> first | rfl | exact h1

/-- `findUse` returns nothing precisely when no tab other than the
requester is streaming with the requested video device. -/
theorem findUse_eq_none_iff (alt : Option String) (cur : Nat) :
    ∀ (ts : List Tab) (i0 : Nat),
      findUse alt cur ts i0 = none ↔
        ∀ j t, ts.get? j = some t → i0 + j ≠ cur → t.is_streaming = true →
          comboData t.video_combo ≠ alt := by
  intro ts
  induction ts with
  | nil => intro i0; simp [findUse]
  | cons u us ih =>
    intro i0
    simp only [findUse]
    by_cases h : i0 ≠ cur ∧ u.is_streaming = true ∧ comboData u.video_combo = alt
    · rw [if_pos h]
      simp only [false_iff, reduceCtorEq]
      intro hall
      exact hall 0 u rfl (by simpa using h.1) h.2.1 h.2.2
    · rw [if_neg h, ih (i0 + 1)]
      constructor
      · intro hall j t hj hne hstr
        match j, hj with
        | 0, hj =>
          cases hj
          intro hdata
          exact h ⟨by simpa using hne, hstr, hdata⟩
        | j' + 1, hj =>
          exact hall j' t hj (by omega) hstr
      · intro hall j t hj hne hstr
        exact hall (j + 1) t hj (by omega) hstr

/-- When exactly one other streaming tab matches the requested device,
`findUse` names that tab. -/
theorem findUse_eq_some (alt : Option String) (cur : Nat) :
    ∀ (ts : List Tab) (i0 j : Nat) (t : Tab),
      ts.get? j = some t → i0 + j ≠ cur → t.is_streaming = true →
      comboData t.video_combo = alt →
      (∀ j' t', ts.get? j' = some t' → i0 + j' ≠ cur → t'.is_streaming = true →
        comboData t'.video_combo = alt → j' = j) →
      findUse alt cur ts i0 = some t.channel_name := by
  intro ts
  induction ts with
  | nil => intro i0 j t hj; cases hj
  | cons u us ih =>
    intro i0 j t hj hne hstr hdata huniq
    simp only [findUse]
    by_cases h : i0 ≠ cur ∧ u.is_streaming = true ∧ comboData u.video_combo = alt
    · rw [if_pos h]
      have hj0 : (0 : Nat) = j :=
        huniq 0 u rfl (by simpa using h.1) h.2.1 h.2.2
      rw [← hj0] at hj
      cases hj
      rfl
    · rw [if_neg h]
      match j, hj with
      | 0, hj =>
        cases hj
        exact absurd ⟨by simpa using hne, hstr, hdata⟩ h
      | j' + 1, hj =>
        refine ih (i0 + 1) j' t hj (by omega) hstr hdata ?_
        intro j'' t'' hj'' hne'' hstr'' hdata''
        have := huniq (j'' + 1) t'' hj'' (by omega) hstr'' hdata''
        omega

/-- The projection of a tab consulted by the device-in-use scan: its
name, its video combo's userData and its streaming flag — notably not
its audio device. -/
def videoProj (t : Tab) : String × Option String × Bool :=
  (t.channel_name, comboData t.video_combo, t.is_streaming)

/-- `findUse` only reads the `videoProj` projection of the tabs. -/
theorem findUse_congr (alt : Option String) (cur : Nat) :
    ∀ (ts ts' : List Tab), ts.map videoProj = ts'.map videoProj →
      ∀ i0, findUse alt cur ts i0 = findUse alt cur ts' i0 := by
  intro ts
  induction ts with
  | nil =>
    intro ts' h i0
    cases ts' with
    | nil => rfl
    | cons v vs => cases h
  | cons u us ih =>
    intro ts' h i0
    cases ts' with
    | nil => cases h
    | cons v vs =>
      simp only [List.map_cons, List.cons.injEq] at h
      obtain ⟨hp, hrest⟩ := h
      simp only [videoProj, Prod.mk.injEq] at hp
      obtain ⟨hn, hd, hs⟩ := hp
      simp only [findUse, hn, hd, hs]
      rw [ih vs hrest (i0 + 1)]

/-- Device exclusivity over a tab list: no two distinct streaming tabs
hold the same video-device userData. -/
def DeviceExclusive (tabs : List Tab) : Prop :=
  tabs.Pairwise (fun a b => a.is_streaming = true → b.is_streaming = true →
    comboData a.video_combo ≠ comboData b.video_combo)

instance (tabs : List Tab) : Decidable (DeviceExclusive tabs) :=
  inferInstanceAs (Decidable (tabs.Pairwise (fun (a b : Tab) => a.is_streaming = true →
    b.is_streaming = true → comboData a.video_combo ≠ comboData b.video_combo)))

/-- Index-quantified form of `DeviceExclusive`. -/
def ExclusiveIdx (tabs : List Tab) : Prop :=
  ∀ i j ti tj, tabs.get? i = some ti → tabs.get? j = some tj → i ≠ j →
    ti.is_streaming = true → tj.is_streaming = true →
    comboData ti.video_combo ≠ comboData tj.video_combo

theorem deviceExclusive_iff (tabs : List Tab) : DeviceExclusive tabs ↔ ExclusiveIdx tabs := by
  rw [DeviceExclusive, List.pairwise_iff_get]
  constructor
  · intro h i j ti tj hi hj hne hsi hsj
    rcases List.get?_eq_some.mp hi with ⟨hilt, hig⟩
    rcases List.get?_eq_some.mp hj with ⟨hjlt, hjg⟩
    rcases Nat.lt_or_ge i j with hlt | hge
    · have := h ⟨i, hilt⟩ ⟨j, hjlt⟩ hlt
      rw [hig, hjg] at this
      exact this hsi hsj
    · have hjl : j < i := by omega
      have := h ⟨j, hjlt⟩ ⟨i, hilt⟩ hjl
      rw [hig, hjg] at this
      exact fun he => (this hsj hsi) he.symm
  · intro h i j hlt hsi hsj
    refine h i j _ _ ?_ ?_ (by omega) hsi hsj
    · exact List.get?_eq_some.mpr ⟨i.isLt, rfl⟩
    · exact List.get?_eq_some.mpr ⟨j.isLt, rfl⟩

/-- Replacing the tab at position `i` preserves exclusivity as long as
the new tab, when streaming, conflicts with no other streaming tab. -/
theorem exclusiveIdx_set (tabs : List Tab) (i : Nat) (t' : Tab)
    (hex : ExclusiveIdx tabs)
    (hnew : t'.is_streaming = true → ∀ j tj, tabs.get? j = some tj → j ≠ i →
      tj.is_streaming = true → comboData tj.video_combo ≠ comboData t'.video_combo) :
    ExclusiveIdx (tabs.set i t') := by
  intro a b ta tb ha hb hne hsa hsb
  rw [List.get?_eq_getElem?, List.getElem?_set] at ha hb
  by_cases hai : i = a
  · subst hai
    by_cases hilt : i < tabs.length
    · rw [if_pos rfl, if_pos hilt] at ha
      cases ha
      rw [if_neg hne] at hb
      exact fun he => hnew hsa b tb (by rw [List.get?_eq_getElem?]; exact hb)
        (fun h => hne h.symm) hsb he.symm
    · rw [if_pos rfl, if_neg hilt] at ha
      cases ha
  · rw [if_neg hai] at ha
    by_cases hbi : i = b
    · subst hbi
      by_cases hilt : i < tabs.length
      · rw [if_pos rfl, if_pos hilt] at hb
        cases hb
        exact hnew hsb a ta (by rw [List.get?_eq_getElem?]; exact ha)
          (fun h => hai h.symm) hsa
      · rw [if_pos rfl, if_neg hilt] at hb
        cases hb
    · rw [if_neg hbi] at hb
      exact hex a b ta tb (by rw [List.get?_eq_getElem?]; exact ha)
        (by rw [List.get?_eq_getElem?]; exact hb) hne hsa hsb

/-- A successful `ensure_nginx_running` call amounts to setting the
nginx-running flag. -/
theorem ensure_of_ok (s : AppState) (h : (ensure_nginx_running s).1 = true) :
    ensure_nginx_running s = (true, { s with nginxRunning := true }) := by
  unfold ensure_nginx_running at h ⊢
  split_ifs at h ⊢ with h1 h2 h3 <;> first | rfl | (cases s; simp_all)

/-- `build_ffmpeg_command` succeeds whenever the executable exists, the
framerate is empty or numeric, and the de-`k`-ed video bitrate is
numeric. -/
theorem build_isOk (exe : String) (t : Tab) (dir : String)
    (hfr : t.framerate = "" ∨ ∃ n, pyToInt t.framerate = Except.ok n)
    (hbr : ∃ n, pyToInt (stripK t.video_bitrate) = Except.ok n) :
    ∃ cmd, build_ffmpeg_command true exe t dir = Except.ok cmd := by
  obtain ⟨bn, hbn⟩ := hbr
  cases hB : build_ffmpeg_command true exe t dir with
  | ok cmd => exact ⟨cmd, rfl⟩
  | error e =>
    rcases hfr with h | ⟨fn, hfn⟩
    · simp [build_ffmpeg_command, h, hbn] at hB
    · have hne : t.framerate ≠ "" := by
        intro he
        have hempty : pyToInt "" = Except.error .valueError := rfl
        rw [he, hempty] at hfn
        cases hfn
      simp [build_ffmpeg_command, if_neg hne, hfn, hbn] at hB

/-- Case analysis of `start_stream`: either the tab list is untouched
(all abort paths), or the call succeeded, the device-in-use check came
back clear, and exactly the requested tab was marked streaming. -/
theorem start_stream_cases (s : AppState) (i : Nat) :
    (start_stream s i).2.tabs = s.tabs ∨
    ((start_stream s i).1 = StartResult.ok ∧
      is_video_device_in_use s.tabs
        (comboData (s.tabs.getD i default).video_combo) i = none ∧
      (start_stream s i).2.tabs =
        s.tabs.set i { s.tabs.getD i default with is_streaming := true }) := by
  have htabs := ensure_tabs s
  rcases heq : ensure_nginx_running s with ⟨b, s1⟩
  rw [heq] at htabs
  have h1 : s1.tabs = s.tabs := htabs
  cases b
  · simp only [start_stream, heq]
    exact Or.inl h1
  · simp only [start_stream, heq, h1]
    cases hU : is_video_device_in_use s.tabs
        (comboData (s.tabs.getD i default).video_combo) i with
    | some owner => exact Or.inl h1
    | none =>
      dsimp only
      split_ifs with hh
      · cases hB : build_ffmpeg_command s1.ffmpegExists s1.ffmpeg_exe
            (s.tabs.getD i default)
            (pyJoin s1.hls_root (safeName (s.tabs.getD i default).channel_name)) with
        | error e => simp only [hB]; exact Or.inl h1
        | ok cmd =>
          simp only [hB]
          refine Or.inr ⟨?_, ?_, ?_⟩ <;> trivial
      · exact Or.inl h1

/-- The state effect of `stop_stream` on the tab list: the requested tab
is marked idle, nothing else changes. -/
theorem stop_stream_tabs (s : AppState) (i : Nat) :
    (stop_stream s i).tabs =
      s.tabs.set i { s.tabs.getD i default with is_streaming := false } := by
  simp only [stop_stream, check_and_stop_nginx]
  split_ifs <;> rfl

/-- A `start_stream` call whose four gates pass (nginx up, device free,
directory created, command built) marks exactly the requested tab
streaming and records nginx as running. -/
theorem start_stream_ok (s : AppState) (i : Nat)
    (hens : (ensure_nginx_running s).1 = true)
    (hU : is_video_device_in_use s.tabs
      (comboData (s.tabs.getD i default).video_combo) i = none)
    (hhls : s.hlsOk = true)
    (hbuild : ∃ cmd, build_ffmpeg_command s.ffmpegExists s.ffmpeg_exe
      (s.tabs.getD i default)
      (pyJoin s.hls_root (safeName (s.tabs.getD i default).channel_name)) = Except.ok cmd) :
    start_stream s i =
      (StartResult.ok,
       { s with tabs := s.tabs.set i { s.tabs.getD i default with is_streaming := true },
                nginxRunning := true }) := by
  obtain ⟨cmd, hc⟩ := hbuild
  unfold start_stream
  rw [ensure_of_ok s hens]
  dsimp only
  rw [hU, hc, if_neg (not_not_intro hhls)]

/-- The device-in-use scan comes back clear exactly when no channel
other than the requester is streaming with the requested device. -/
theorem in_use_eq_none_iff (tabs : List Tab) (alt : Option String) (cur : Nat) :
    is_video_device_in_use tabs alt cur = none ↔
      ∀ j t, tabs.get? j = some t → j ≠ cur → t.is_streaming = true →
        comboData t.video_combo ≠ alt := by
  rw [is_video_device_in_use, findUse_eq_none_iff alt cur tabs 0]
  constructor
  · intro h j t hj hne
    exact h j t hj (by omega)
  · intro h j t hj hne
    exact h j t hj (by omega)

/-- `start_stream` preserves device exclusivity. -/
theorem start_stream_preserves_exclusive (s : AppState) (i : Nat)
    (hex : DeviceExclusive s.tabs) : DeviceExclusive (start_stream s i).2.tabs := by
  rcases start_stream_cases s i with h | ⟨-, hU, h⟩
  · rw [h]; exact hex
  · rw [h]
    rw [deviceExclusive_iff] at hex ⊢
    apply exclusiveIdx_set _ _ _ hex
    intro _ j tj hj hne hstrj
    have := (in_use_eq_none_iff s.tabs
      (comboData (s.tabs.getD i default).video_combo) i).mp hU j tj hj hne hstrj
    simpa using this

/-- `stop_stream` preserves device exclusivity. -/
theorem stop_stream_preserves_exclusive (s : AppState) (i : Nat)
    (hex : DeviceExclusive s.tabs) : DeviceExclusive (stop_stream s i).tabs := by
  rw [stop_stream_tabs]
  rw [deviceExclusive_iff] at hex ⊢
  apply exclusiveIdx_set _ _ _ hex
  intro hstr
  cases hstr

/-- A start request whose device is held by another streaming channel is
answered with `DeviceInUse` naming that channel. -/
theorem start_stream_conflict (s : AppState) (i j : Nat) (tj : Tab)
    (hens : (ensure_nginx_running s).1 = true)
    (hj : s.tabs.get? j = some tj) (hne : j ≠ i) (hstr : tj.is_streaming = true)
    (hdata : comboData tj.video_combo = comboData (s.tabs.getD i default).video_combo)
    (hex : DeviceExclusive s.tabs) :
    (start_stream s i).1 = StartResult.deviceInUse tj.channel_name := by
  have hfind : is_video_device_in_use s.tabs
      (comboData (s.tabs.getD i default).video_combo) i = some tj.channel_name := by
    apply findUse_eq_some _ _ s.tabs 0 j tj hj (by omega) hstr hdata
    intro j' t' hj' hne' hstr' hdata'
    by_contra hnej
    have hxx := (deviceExclusive_iff _).mp hex j' j t' tj hj' hj hnej hstr' hstr
    exact hxx (by rw [hdata', hdata])
  unfold start_stream
  rw [ensure_of_ok s hens]
  dsimp only
  rw [hfind]

end StreamManagerApp

open StreamManagerApp in
/-- C1: video-device exclusivity.  Starting or stopping a channel keeps
the invariant that no two distinct streaming channels hold the same
video-device altId; the in-use check scans every channel other than the
requester whose flag is set; and a start attempt for channel `i` while
channel `j` streams with the same device altId fails with `DeviceInUse`
naming channel `j`. -/
theorem c1_video_device_exclusivity :
    (∀ (s : AppState) (i : Nat), DeviceExclusive s.tabs →
      DeviceExclusive (start_stream s i).2.tabs) ∧
    (∀ (s : AppState) (i : Nat), DeviceExclusive s.tabs →
      DeviceExclusive (stop_stream s i).tabs) ∧
    (∀ (tabs : List Tab) (alt : Option String) (cur : Nat),
      is_video_device_in_use tabs alt cur = none ↔
        ∀ j t, tabs.get? j = some t → j ≠ cur → t.is_streaming = true →
          comboData t.video_combo ≠ alt) ∧
    (∀ (s : AppState) (i j : Nat) (tj : Tab),
      (ensure_nginx_running s).1 = true →
      s.tabs.get? j = some tj → j ≠ i → tj.is_streaming = true →
      comboData tj.video_combo = comboData (s.tabs.getD i default).video_combo →
      DeviceExclusive s.tabs →
      (start_stream s i).1 = StartResult.deviceInUse tj.channel_name) :=
  ⟨start_stream_preserves_exclusive, stop_stream_preserves_exclusive,
    in_use_eq_none_iff, start_stream_conflict⟩

open StreamManagerApp in
/-- Witness for C1: channel "A" streams with video device "X"; a start
attempt of channel "B", also configured for "X", is refused as
`DeviceInUse "A"`, under a state satisfying the exclusivity invariant. -/
theorem c1_video_device_exclusivity_witness :
    DeviceExclusive
      [{ StreamTab.new true ⟨[], []⟩ "A" with
          video_combo := ⟨[("Cam  [#1]", "X")], some 0⟩, is_streaming := true },
       { StreamTab.new true ⟨[], []⟩ "B" with
          video_combo := ⟨[("Cam  [#1]", "X")], some 0⟩ }] ∧
    (start_stream
      { tabs := [{ StreamTab.new true ⟨[], []⟩ "A" with
                    video_combo := ⟨[("Cam  [#1]", "X")], some 0⟩, is_streaming := true },
                 { StreamTab.new true ⟨[], []⟩ "B" with
                    video_combo := ⟨[("Cam  [#1]", "X")], some 0⟩ }],
        nginxRunning := true, nginxExists := true, nginxLaunchOk := true,
        ffmpegExists := true, ffmpeg_exe := "ffmpeg.exe",
        hlsOk := true, hls_root := "C:\\hls" } 1).1 = StartResult.deviceInUse "A" := by
  constructor
  · decide
  · exact c1_video_device_exclusivity.2.2.2
      { tabs := [{ StreamTab.new true ⟨[], []⟩ "A" with
                    video_combo := ⟨[("Cam  [#1]", "X")], some 0⟩, is_streaming := true },
                 { StreamTab.new true ⟨[], []⟩ "B" with
                    video_combo := ⟨[("Cam  [#1]", "X")], some 0⟩ }],
        nginxRunning := true, nginxExists := true, nginxLaunchOk := true,
        ffmpegExists := true, ffmpeg_exe := "ffmpeg.exe",
        hlsOk := true, hls_root := "C:\\hls" } 1 0 _
      rfl rfl (by decide) rfl rfl (by decide)

open StreamManagerApp in
/-- C2: when `start_stream` aborts with `DeviceInUse`, the abort changes
no tab: the tab list — and with it the number of active channels, the
quantity the dependent-service arbitration is driven by — is exactly
what it was before the call. -/
theorem c2_device_in_use_abort_atomic (s : AppState) (i j : Nat) (tj : Tab)
    (hens : (ensure_nginx_running s).1 = true)
    (hj : s.tabs.get? j = some tj) (hne : j ≠ i) (hstr : tj.is_streaming = true)
    (hdata : comboData tj.video_combo = comboData (s.tabs.getD i default).video_combo) :
    (∃ owner, (start_stream s i).1 = StartResult.deviceInUse owner) ∧
    (start_stream s i).2.tabs = s.tabs ∧
    (start_stream s i).2.tabs.countP (·.is_streaming) = s.tabs.countP (·.is_streaming) := by
  have hnn : is_video_device_in_use s.tabs
      (comboData (s.tabs.getD i default).video_combo) i ≠ none := by
    intro h
    exact (in_use_eq_none_iff s.tabs _ i).mp h j tj hj hne hstr hdata
  obtain ⟨owner, howner⟩ : ∃ o, is_video_device_in_use s.tabs
      (comboData (s.tabs.getD i default).video_combo) i = some o := by
    cases hx : is_video_device_in_use s.tabs
        (comboData (s.tabs.getD i default).video_combo) i with
    | none => exact absurd hx hnn
    | some o => exact ⟨o, rfl⟩
  unfold start_stream
  rw [ensure_of_ok s hens]
  dsimp only
  rw [howner]
  exact ⟨⟨owner, rfl⟩, rfl, rfl⟩

open StreamManagerApp in
/-- Witness for C2: the `DeviceInUse` abort of the C1 witness state
leaves the tab list and the active-channel count unchanged. -/
theorem c2_device_in_use_abort_atomic_witness :
    (∃ owner, (start_stream
      { tabs := [{ StreamTab.new true ⟨[], []⟩ "A" with
                    video_combo := ⟨[("Cam  [#1]", "Y")], some 0⟩, is_streaming := true },
                 { StreamTab.new true ⟨[], []⟩ "B" with
                    video_combo := ⟨[("Cam  [#1]", "Y")], some 0⟩ }],
        nginxRunning := false, nginxExists := true, nginxLaunchOk := true,
        ffmpegExists := true, ffmpeg_exe := "ffmpeg.exe",
        hlsOk := true, hls_root := "C:\\hls" } 1).1 = StartResult.deviceInUse owner) ∧
    (start_stream
      { tabs := [{ StreamTab.new true ⟨[], []⟩ "A" with
                    video_combo := ⟨[("Cam  [#1]", "Y")], some 0⟩, is_streaming := true },
                 { StreamTab.new true ⟨[], []⟩ "B" with
                    video_combo := ⟨[("Cam  [#1]", "Y")], some 0⟩ }],
        nginxRunning := false, nginxExists := true, nginxLaunchOk := true,
        ffmpegExists := true, ffmpeg_exe := "ffmpeg.exe",
        hlsOk := true, hls_root := "C:\\hls" } 1).2.tabs =
      [{ StreamTab.new true ⟨[], []⟩ "A" with
          video_combo := ⟨[("Cam  [#1]", "Y")], some 0⟩, is_streaming := true },
       { StreamTab.new true ⟨[], []⟩ "B" with
          video_combo := ⟨[("Cam  [#1]", "Y")], some 0⟩ }] ∧
    (start_stream
      { tabs := [{ StreamTab.new true ⟨[], []⟩ "A" with
                    video_combo := ⟨[("Cam  [#1]", "Y")], some 0⟩, is_streaming := true },
                 { StreamTab.new true ⟨[], []⟩ "B" with
                    video_combo := ⟨[("Cam  [#1]", "Y")], some 0⟩ }],
        nginxRunning := false, nginxExists := true, nginxLaunchOk := true,
        ffmpegExists := true, ffmpeg_exe := "ffmpeg.exe",
        hlsOk := true, hls_root := "C:\\hls" } 1).2.tabs.countP (·.is_streaming) =
      ([{ StreamTab.new true ⟨[], []⟩ "A" with
           video_combo := ⟨[("Cam  [#1]", "Y")], some 0⟩, is_streaming := true },
        { StreamTab.new true ⟨[], []⟩ "B" with
           video_combo := ⟨[("Cam  [#1]", "Y")], some 0⟩ }] :
        List Tab).countP (·.is_streaming) := by
  exact c2_device_in_use_abort_atomic _ 1 0 _ rfl rfl (by decide) rfl rfl

open StreamManagerApp in
/-- C8: audio devices are not arbitrated.  Two idle channels sharing the
same audio-device altId but holding different video-device altIds can be
started one after the other: both starts succeed and both channels end
up streaming simultaneously; and the in-use check reads only each tab's
name, video-device userData and streaming flag — never the audio
device. -/
theorem c8_audio_sharing_allowed (s : AppState) (ta tb : Tab)
    (htabs : s.tabs = [ta, tb])
    (hsa : ta.is_streaming = false) (hsb : tb.is_streaming = false)
    (haudio : comboData ta.audio_combo = comboData tb.audio_combo)
    (hvid : comboData ta.video_combo ≠ comboData tb.video_combo)
    (hens : (ensure_nginx_running s).1 = true)
    (hhls : s.hlsOk = true) (hffx : s.ffmpegExists = true)
    (hfa : ta.framerate = "" ∨ ∃ n, pyToInt ta.framerate = Except.ok n)
    (hba : ∃ n, pyToInt (stripK ta.video_bitrate) = Except.ok n)
    (hfb : tb.framerate = "" ∨ ∃ n, pyToInt tb.framerate = Except.ok n)
    (hbb : ∃ n, pyToInt (stripK tb.video_bitrate) = Except.ok n) :
    (start_stream s 0).1 = StartResult.ok ∧
    (start_stream (start_stream s 0).2 1).1 = StartResult.ok ∧
    (start_stream (start_stream s 0).2 1).2.tabs.map (·.is_streaming) = [true, true] ∧
    (∀ (tabs tabs' : List Tab) (alt : Option String) (cur : Nat),
      tabs.map videoProj = tabs'.map videoProj →
      is_video_device_in_use tabs alt cur = is_video_device_in_use tabs' alt cur) := by
  have hget0 : s.tabs.getD 0 default = ta := by rw [htabs]; rfl
  have hget1 : s.tabs.getD 1 default = tb := by rw [htabs]; rfl
  have hU1 : is_video_device_in_use s.tabs
      (comboData (s.tabs.getD 0 default).video_combo) 0 = none := by
    rw [hget0, htabs]
    simp [is_video_device_in_use, findUse, hsb]
  have hb1 : ∃ cmd, build_ffmpeg_command s.ffmpegExists s.ffmpeg_exe
      (s.tabs.getD 0 default)
      (pyJoin s.hls_root (safeName (s.tabs.getD 0 default).channel_name)) =
        Except.ok cmd := by
    rw [hget0, hffx]
    exact build_isOk s.ffmpeg_exe ta _ hfa hba
  have h1 := start_stream_ok s 0 hens hU1 hhls hb1
  rw [h1]
  refine ⟨rfl, ?_⟩
  rw [hget0, htabs]
  have hset0 : ([ta, tb].set 0 { ta with is_streaming := true}) =
      [{ ta with is_streaming := true }, tb] := rfl
  rw [hset0]
  set s2 : AppState :=
    { s with tabs := [{ ta with is_streaming := true }, tb], nginxRunning := true }
    with hs2
  have hens2 : (ensure_nginx_running s2).1 = true := rfl
  have hget1' : s2.tabs.getD 1 default = tb := rfl
  have hU2 : is_video_device_in_use s2.tabs
      (comboData (s2.tabs.getD 1 default).video_combo) 1 = none := by
    rw [hget1']
    show findUse (comboData tb.video_combo) 1
      [{ ta with is_streaming := true }, tb] 0 = none
    simp [findUse, hvid]
  have hhls2 : s2.hlsOk = true := hhls
  have hb2 : ∃ cmd, build_ffmpeg_command s2.ffmpegExists s2.ffmpeg_exe
      (s2.tabs.getD 1 default)
      (pyJoin s2.hls_root (safeName (s2.tabs.getD 1 default).channel_name)) =
        Except.ok cmd := by
    rw [hget1']
    show ∃ cmd, build_ffmpeg_command s.ffmpegExists s.ffmpeg_exe tb
      (pyJoin s.hls_root (safeName tb.channel_name)) = Except.ok cmd
    rw [hffx]
    exact build_isOk s.ffmpeg_exe tb _ hfb hbb
  have h2 := start_stream_ok s2 1 hens2 hU2 hhls2 hb2
  rw [h2]
  refine ⟨rfl, rfl, ?_⟩
  intro tabs tabs' alt cur h
  exact findUse_congr alt cur tabs tabs' h 0

open StreamManagerApp in
/-- Witness for C8: channels "A" and "B" share audio device "A1" but use
video devices "V1" and "V2"; both starts succeed and both channels end
up streaming. -/
theorem c8_audio_sharing_allowed_witness :
    (start_stream
      { tabs := [{ StreamTab.new true ⟨[], []⟩ "A" with
                    video_combo := ⟨[("V  [#1]", "V1")], some 0⟩,
                    audio_combo := ⟨[("M  [#1]", "A1")], some 0⟩ },
                 { StreamTab.new true ⟨[], []⟩ "B" with
                    video_combo := ⟨[("V  [#1]", "V2")], some 0⟩,
                    audio_combo := ⟨[("M  [#1]", "A1")], some 0⟩ }],
        nginxRunning := true, nginxExists := true, nginxLaunchOk := true,
        ffmpegExists := true, ffmpeg_exe := "ffmpeg.exe",
        hlsOk := true, hls_root := "C:\\hls" } 0).1 = StartResult.ok ∧
    (start_stream (start_stream
      { tabs := [{ StreamTab.new true ⟨[], []⟩ "A" with
                    video_combo := ⟨[("V  [#1]", "V1")], some 0⟩,
                    audio_combo := ⟨[("M  [#1]", "A1")], some 0⟩ },
                 { StreamTab.new true ⟨[], []⟩ "B" with
                    video_combo := ⟨[("V  [#1]", "V2")], some 0⟩,
                    audio_combo := ⟨[("M  [#1]", "A1")], some 0⟩ }],
        nginxRunning := true, nginxExists := true, nginxLaunchOk := true,
        ffmpegExists := true, ffmpeg_exe := "ffmpeg.exe",
        hlsOk := true, hls_root := "C:\\hls" } 0).2 1).1 = StartResult.ok ∧
    (start_stream (start_stream
      { tabs := [{ StreamTab.new true ⟨[], []⟩ "A" with
                    video_combo := ⟨[("V  [#1]", "V1")], some 0⟩,
                    audio_combo := ⟨[("M  [#1]", "A1")], some 0⟩ },
                 { StreamTab.new true ⟨[], []⟩ "B" with
                    video_combo := ⟨[("V  [#1]", "V2")], some 0⟩,
                    audio_combo := ⟨[("M  [#1]", "A1")], some 0⟩ }],
        nginxRunning := true, nginxExists := true, nginxLaunchOk := true,
        ffmpegExists := true, ffmpeg_exe := "ffmpeg.exe",
        hlsOk := true, hls_root := "C:\\hls" } 0).2 1).2.tabs.map (·.is_streaming) =
      [true, true] := by
  obtain ⟨h1, h2, h3, -⟩ := c8_audio_sharing_allowed
    { tabs := [{ StreamTab.new true ⟨[], []⟩ "A" with
                  video_combo := ⟨[("V  [#1]", "V1")], some 0⟩,
                  audio_combo := ⟨[("M  [#1]", "A1")], some 0⟩ },
               { StreamTab.new true ⟨[], []⟩ "B" with
                  video_combo := ⟨[("V  [#1]", "V2")], some 0⟩,
                  audio_combo := ⟨[("M  [#1]", "A1")], some 0⟩ }],
      nginxRunning := true, nginxExists := true, nginxLaunchOk := true,
      ffmpegExists := true, ffmpeg_exe := "ffmpeg.exe",
      hlsOk := true, hls_root := "C:\\hls" }
    { StreamTab.new true ⟨[], []⟩ "A" with
        video_combo := ⟨[("V  [#1]", "V1")], some 0⟩,
        audio_combo := ⟨[("M  [#1]", "A1")], some 0⟩ }
    { StreamTab.new true ⟨[], []⟩ "B" with
        video_combo := ⟨[("V  [#1]", "V2")], some 0⟩,
        audio_combo := ⟨[("M  [#1]", "A1")], some 0⟩ }
    rfl rfl rfl rfl (by decide) rfl rfl rfl
    (Or.inr ⟨60, rfl⟩) ⟨6000, rfl⟩ (Or.inr ⟨60, rfl⟩) ⟨6000, rfl⟩
  exact ⟨h1, h2, h3⟩

/-! ## C9 — user-initiated stop always reports exit code 0 -/

/-- C9: `FFmpegWorker.stop` clears `running` and unconditionally ends with
`process_finished.emit(0)` whatever the process state and however the
graceful-stop attempt went; the reader tail of `run` then emits no
terminal event at all, and with no stop request it emits exactly the
process's own exit code. -/
theorem c9_stop_always_reports_zero (w : WorkerState) (oc : StopOutcome) (c : Int) :
    (workerStop w oc).2.getLast? = some (WEvent.finished 0) ∧
    (workerStop w oc).1.running = false ∧
    readerFinish (workerStop w oc).1 c = [] ∧
    readerFinish { w with running := true } c = [WEvent.finished c] := by
  refine ⟨?_, ?_, ?_, ?_⟩
  · by_cases h : w.hasProc ∧ w.procAlive
    · simp only [workerStop, if_pos h]
      rw [List.getLast?_concat]
    · simp [workerStop, if_neg h]
  · by_cases h : w.hasProc ∧ w.procAlive <;> simp [workerStop, h]
  · by_cases h : w.hasProc ∧ w.procAlive <;> simp [workerStop, readerFinish, h]
  · simp [readerFinish]

/-! ## C3 — missing-executable failure at channel start -/

/-- C3 (code bug): with the ffmpeg executable absent, the worker layer
does behave as specified (one log line plus a terminal event with the
sentinel code -1), but the start path does not: `build_ffmpeg_command`
evaluates `self.log_message.emit(...)` on the `StreamTab`, which has no
`log_message` attribute, so an `AttributeError` is raised and propagates
out of `start_stream` instead of a reported, non-throwing failure. -/
theorem c3_missing_executable_behavior :
    build_ffmpeg_command false "C:\\ffmpeg\\bin\\ffmpeg.exe"
        (StreamTab.new true ⟨[], []⟩ "Channel 1") "C:\\hls\\channel1"
      = .error .attributeError ∧
    (StreamManagerApp.start_stream
        { tabs := [StreamTab.new true ⟨[], []⟩ "Channel 1"],
          nginxRunning := true, nginxExists := true, nginxLaunchOk := true,
          ffmpegExists := false, ffmpeg_exe := "C:\\ffmpeg\\bin\\ffmpeg.exe",
          hlsOk := true, hls_root := "C:\\hls" } 0).1
      = .exn .attributeError ∧
    workerRun false [] 0
      = [.log "Error: ffmpeg.exe not found. Please check the path.", .finished (-1)] := by
  refine ⟨rfl, ?_, rfl⟩
  decide

/-! ## C5 — AddChannel and duplicate names -/

/-- C5 (counterexample): `add_new_tab` accepts a channel name colliding
exactly (hence also slug-colliding) with an existing channel: the channel
set grows and ends with two channels named "Channel 1", instead of
failing with DuplicateChannel and leaving the set unchanged. -/
theorem c5_counterexample :
    (StreamManagerApp.add_new_tab true ⟨[], []⟩
        [StreamTab.new true ⟨[], []⟩ "Channel 1"] (some "Channel 1") none).map
        Tab.channel_name = ["Channel 1", "Channel 1"] ∧
    StreamManagerApp.add_new_tab true ⟨[], []⟩
        [StreamTab.new true ⟨[], []⟩ "Channel 1"] (some "Channel 1") none ≠
      [StreamTab.new true ⟨[], []⟩ "Channel 1"] := by
  decide

/-- C5 (amended): `add_new_tab` performs no duplicate check at all: for
every existing channel list and every requested name and config it
appends exactly one new channel and leaves the existing channels
untouched, even when the requested name's slug collides with an existing
channel's slug. -/
theorem c5_add_never_rejects (ffx : Bool) (cat : Catalog) (tabs : List Tab)
    (name : Option String) (config : Option ChannelConfig) :
    (StreamManagerApp.add_new_tab ffx cat tabs name config).length = tabs.length + 1 ∧
    (StreamManagerApp.add_new_tab ffx cat tabs name config).take tabs.length = tabs := by
  unfold StreamManagerApp.add_new_tab
  exact ⟨by simp, by simp [List.take_left]⟩

/-! ## C4 — BuildCommand determinism and derived values -/

/-- C4: for every config whose framerate and video bitrate parse, the
built command fixes `-hls_time 2` and `-hls_list_size 6`, sets `-g` and
`-keyint_min` to twice the framerate, `-bufsize` to twice the numeric
video bitrate, resamples audio to 44100 Hz, requests the three HLS flags,
and contains the scaling filter pair iff the frame size is non-empty
after stripping. -/
theorem c4_build_command_derived_values (exe : String) (t : Tab) (dir : String)
    (fr bn : Int) (h0 : t.framerate ≠ "") (h1 : pyToInt t.framerate = Except.ok fr)
    (h2 : pyToInt (stripK t.video_bitrate) = Except.ok bn) :
    ∃ cmd, build_ffmpeg_command true exe t dir = Except.ok cmd ∧
      ["-hls_time", "2"] <:+: cmd ∧
      ["-hls_list_size", "6"] <:+: cmd ∧
      ["-g", toString (2 * fr), "-keyint_min", toString (2 * fr)] <:+: cmd ∧
      ["-bufsize", toString (2 * bn) ++ "k"] <:+: cmd ∧
      ["-ar", "44100"] <:+: cmd ∧
      ["-hls_flags", "delete_segments+program_date_time+independent_segments"] <:+: cmd ∧
      (["-vf", "scale=" ++ pyStrip t.video_size ++ ":flags=lanczos"] <:+: cmd ↔
        pyStrip t.video_size ≠ "") := by
  have hstrip : pyStrip t.framerate ≠ "" := pyStrip_ne_empty_of_ok h1
  rw [mul_comm 2 fr, mul_comm 2 bn]
  simp only [build_ffmpeg_command, Bool.not_true, if_neg h0, h1, h2, if_pos hstrip]
  by_cases hvs : pyStrip t.video_size = ""
  · rw [if_neg (not_not_intro hvs), hvs]
    simp only [show "scale=" ++ "" ++ ":flags=lanczos" = "scale=:flags=lanczos" from rfl]
    have hseg : pyJoin dir "segment_%d.ts" ≠ "-vf" := by
      intro h
      have hl := congrArg String.length h
      simp [pyJoin, String.length_append, show ("\\" : String).length = 1 from rfl,
        show ("segment_%d.ts" : String).length = 13 from rfl,
        show ("-vf" : String).length = 3 from rfl] at hl
    refine ⟨_, rfl, ?_, ?_, ?_, ?_, ?_, ?_, ?_⟩
    · repeat first | exact ⟨[], _, rfl⟩ | apply List.infix_cons
    · repeat first | exact ⟨[], _, rfl⟩ | apply List.infix_cons
    · repeat first | exact ⟨[], _, rfl⟩ | apply List.infix_cons
    · repeat first | exact ⟨[], _, rfl⟩ | apply List.infix_cons
    · repeat first | exact ⟨[], _, rfl⟩ | apply List.infix_cons
    · repeat first | exact ⟨[], _, rfl⟩ | apply List.infix_cons
    · have hno : ¬ (["-vf", "scale=:flags=lanczos"] <:+:
          ([exe, "-hide_banner", "-loglevel", "info", "-f", "dshow",
            "-rtbufsize", "512M"] ++
           ["-framerate", pyStrip t.framerate] ++
           ["-thread_queue_size", "1024",
            "-i", "video=" ++ optStr (comboData t.video_combo) ++ ":audio=" ++
                  optStr (comboData t.audio_combo),
            "-map", "0:v:0", "-map", "0:a:0",
            "-c:v", "libx264", "-preset", "superfast", "-tune", "zerolatency",
            "-profile:v", "baseline", "-level", "3.1", "-pix_fmt", "yuv420p",
            "-fps_mode", "cfr"] ++
           [] ++
           ["-b:v", t.video_bitrate, "-maxrate", t.video_bitrate,
            "-bufsize", toString (bn * 2) ++ "k",
            "-g", toString (fr * 2), "-keyint_min", toString (fr * 2),
            "-c:a", "aac", "-b:a", t.audio_bitrate, "-ar", "44100",
            "-f", "hls", "-hls_time", "2", "-hls_list_size", "6",
            "-hls_flags", "delete_segments+program_date_time+independent_segments",
            "-hls_segment_filename", pyJoin dir "segment_%d.ts",
            pyJoin dir "index.m3u8"])) := by
        rw [← hasPair_iff]
        simp [hasPair, hseg]
      exact ⟨fun h => absurd h hno, fun h => absurd rfl h⟩
  · have hvs' : pyStrip t.video_size ≠ "" := hvs
    rw [if_pos hvs']
    refine ⟨_, rfl, ?_, ?_, ?_, ?_, ?_, ?_, ?_⟩
    · repeat first | exact ⟨[], _, rfl⟩ | apply List.infix_cons
    · repeat first | exact ⟨[], _, rfl⟩ | apply List.infix_cons
    · repeat first | exact ⟨[], _, rfl⟩ | apply List.infix_cons
    · repeat first | exact ⟨[], _, rfl⟩ | apply List.infix_cons
    · repeat first | exact ⟨[], _, rfl⟩ | apply List.infix_cons
    · repeat first | exact ⟨[], _, rfl⟩ | apply List.infix_cons
    · refine ⟨fun _ => hvs', fun _ => ?_⟩
      repeat first | exact ⟨[], _, rfl⟩ | apply List.infix_cons

/-! ## C10 — empty framerate falls back to 25 -/

/-- C10: with an empty framerate string the built command omits the
`-framerate` argument entirely while the keyframe interval is computed
from the default 25 (so `-g` and `-keyint_min` are 50); a non-empty
framerate that `int()` rejects makes command building raise
`ValueError`.  (The two side conditions on `exe` and the audio bitrate
merely rule out those free-form strings being literally `-framerate`.) -/
theorem c10_framerate_fallback (exe : String) (t : Tab) (dir : String) (bn : Int) :
    (t.framerate = "" → pyToInt (stripK t.video_bitrate) = Except.ok bn →
      exe ≠ "-framerate" → t.audio_bitrate ≠ "-framerate" →
      ∃ cmd, build_ffmpeg_command true exe t dir = Except.ok cmd ∧
        "-framerate" ∉ cmd ∧ ["-g", "50", "-keyint_min", "50"] <:+: cmd) ∧
    (t.framerate ≠ "" → pyToInt t.framerate = Except.error PyError.valueError →
      build_ffmpeg_command true exe t dir = Except.error PyError.valueError) := by
  constructor
  · intro h0 h2 hexe haud
    have hbr : t.video_bitrate ≠ "-framerate" := by
      intro h
      rw [h, show pyToInt (stripK "-framerate") = Except.error .valueError from rfl] at h2
      cases h2
    have hvid : "video=" ++ optStr (comboData t.video_combo) ++ ":audio=" ++
        optStr (comboData t.audio_combo) ≠ "-framerate" := by
      intro h
      have hl := congrArg String.length h
      simp [String.length_append, show ("video=" : String).length = 6 from rfl,
        show (":audio=" : String).length = 7 from rfl,
        show ("-framerate" : String).length = 10 from rfl] at hl
      omega
    have hbuf : toString (bn * 2) ++ "k" ≠ "-framerate" := by
      intro h
      have hl : some 'k' = some 'e' := by
        calc some 'k' = (toString (bn * 2) ++ "k").data.getLast? := by
              rw [String.data_append, show ("k" : String).data = ['k'] from rfl,
                List.getLast?_concat]
        _ = ("-framerate" : String).data.getLast? := by rw [h]
        _ = some 'e' := rfl
      exact absurd hl (by decide)
    have hseg : pyJoin dir "segment_%d.ts" ≠ "-framerate" := by
      intro h
      have hl := congrArg String.length h
      simp [pyJoin, String.length_append, show ("\\" : String).length = 1 from rfl,
        show ("segment_%d.ts" : String).length = 13 from rfl,
        show ("-framerate" : String).length = 10 from rfl] at hl
    have hidx : pyJoin dir "index.m3u8" ≠ "-framerate" := by
      intro h
      have hl := congrArg String.length h
      simp [pyJoin, String.length_append, show ("\\" : String).length = 1 from rfl,
        show ("index.m3u8" : String).length = 10 from rfl,
        show ("-framerate" : String).length = 10 from rfl] at hl
    have hsc : "scale=" ++ pyStrip t.video_size ++ ":flags=lanczos" ≠ "-framerate" := by
      intro h
      have hl := congrArg String.length h
      simp [String.length_append, show ("scale=" : String).length = 6 from rfl,
        show (":flags=lanczos" : String).length = 14 from rfl,
        show ("-framerate" : String).length = 10 from rfl] at hl
    simp only [build_ffmpeg_command, Bool.not_true, if_pos h0, h0, h2,
      show pyStrip "" = "" from rfl, ne_eq, not_true_eq_false, if_false,
      show toString ((25 : Int) * 2) = "50" from rfl]
    by_cases hvs : pyStrip t.video_size = ""
    · rw [if_neg (not_not_intro hvs)]
      refine ⟨_, rfl, ?_, ?_⟩
      · simp [Ne.symm hexe, Ne.symm haud, Ne.symm hbr, Ne.symm hvid, Ne.symm hbuf,
          Ne.symm hseg, Ne.symm hidx, show toString (50 : Int) = "50" from rfl]
      · repeat first | exact ⟨[], _, rfl⟩ | apply List.infix_cons
    · rw [if_pos hvs]
      refine ⟨_, rfl, ?_, ?_⟩
      · simp [Ne.symm hexe, Ne.symm haud, Ne.symm hbr, Ne.symm hvid, Ne.symm hbuf,
          Ne.symm hseg, Ne.symm hidx, Ne.symm hsc, show toString (50 : Int) = "50" from rfl]
      · repeat first | exact ⟨[], _, rfl⟩ | apply List.infix_cons
  · intro hne herr
    simp only [build_ffmpeg_command, Bool.not_true, if_neg hne, herr]
    rfl

/-- Witness for C4: the spec's own example, framerate 30 and video
bitrate 1200k, yields keyframe interval 60 and buffer size 2400k. -/
theorem c4_build_command_derived_values_witness :
    ∃ cmd, build_ffmpeg_command true "ffmpeg.exe"
        { StreamTab.new true ⟨[], []⟩ "Channel 1" with
          framerate := "30", video_bitrate := "1200k", video_size := "1280x720" }
        "C:\\hls\\channel1" = Except.ok cmd ∧
      ["-g", "60", "-keyint_min", "60"] <:+: cmd ∧
      ["-bufsize", "2400k"] <:+: cmd ∧
      ["-hls_time", "2"] <:+: cmd := by
  obtain ⟨cmd, hok, ht, hl, hg, hb, har, hfl, hvf⟩ :=
    c4_build_command_derived_values "ffmpeg.exe"
      { StreamTab.new true ⟨[], []⟩ "Channel 1" with
        framerate := "30", video_bitrate := "1200k", video_size := "1280x720" }
      "C:\\hls\\channel1" 30 1200 (by decide) rfl rfl
  exact ⟨cmd, hok, hg, hb, ht⟩

/-! ## C7 — ListDevices parsing contract -/

theorem listOf_withList (st : ParseState) (k : DevKind) (l : List Device) :
    (st.withList k l).listOf k = l := by
  cases k <;> rfl

theorem appendDev_listOf (st : ParseState) (k : DevKind) (n : String) :
    (appendDev st k n).listOf k = st.listOf k ++ [⟨n, n⟩] := by
  cases k <;> rfl

theorem appendDev_last (st : ParseState) (k : DevKind) (n : String) :
    (appendDev st k n).last = some k := by
  cases k <;> rfl

theorem lastTruthy_appendDev (st : ParseState) (k : DevKind) (n : String) :
    lastTruthy (appendDev st k n) = true := by
  cases k <;> simp [lastTruthy, appendDev, ParseState.withList, ParseState.listOf]

theorem setAltLast_append_singleton (l : List Device) (d : Device) (a : String) :
    setAltLast (l ++ [d]) a = l ++ [{ d with alt := a }] := by
  induction l with
  | nil => rfl
  | cons x l' ih => cases l' <;> simp_all [setAltLast]

/-- A line with no quote and no section header leaves the parser state
completely unchanged (lines lacking both are skipped). -/
theorem processLine_skip (st : ParseState) (line : String)
    (h0 : pyIn "DirectShow video devices" line = false)
    (h1 : pyIn "DirectShow audio devices" line = false)
    (hq : pyIn "\"" line = false) :
    processLine st line = st := by
  by_cases halt : (pyIn "Alternative name" line && lastTruthy st) = true <;>
    simp [processLine, h0, h1, hq, halt]

/-- A quoted non-header line that is not consumed as an alternative-name
line and has a target list opens a new device record there, with the alt
defaulting to the name, and repoints `last_device_list`. -/
theorem processLine_open (st : ParseState) (line : String) (name : List Char)
    (k : DevKind)
    (h0 : pyIn "DirectShow video devices" line = false)
    (h1 : pyIn "DirectShow audio devices" line = false)
    (h2 : (pyIn "Alternative name" line && lastTruthy st) = false)
    (hq : pyIn "\"" line = true)
    (hs : (pySplit '"' line.data).get? 1 = some name)
    (ht : targetOf st line = some k) :
    processLine st line = appendDev st k (String.mk name) := by
  rw [List.get?_eq_getElem?] at hs
  simp [processLine, h0, h1, h2, hq, hs, ht]

/-- An alternative-name line, when `last_device_list` is truthy,
overwrites the alt of the last record of whichever list
`last_device_list` aliases. -/
theorem processLine_alt (st : ParseState) (line : String) (alt : List Char)
    (k : DevKind)
    (h0 : pyIn "DirectShow video devices" line = false)
    (h1 : pyIn "DirectShow audio devices" line = false)
    (halt : pyIn "Alternative name" line = true)
    (htr : lastTruthy st = true)
    (hq : pyIn "\"" line = true)
    (hs : (pySplit '"' line.data).get? 1 = some alt)
    (hk : st.last = some k) :
    processLine st line = st.withList k (setAltLast (st.listOf k) (String.mk alt)) := by
  rw [List.get?_eq_getElem?] at hs
  simp [processLine, h0, h1, halt, htr, hq, hs, hk]

/-- C7 (amended): a quoted device-name line within a section opens a new
record with altId defaulting to the name, in the list selected by an
explicit `(video)`/`(audio)` tag or else the current section; an
immediately following alternative-name line overwrites altId on that
just-opened record — the most recently appended record of the list that
most recently received a device, which is the current section's list
only when the device line carried no cross-section tag; and a line with
neither a quote nor a section header is skipped with the parse state
unchanged (the parse never fails). -/
theorem c7_parser_contract :
    (∀ st line, pyIn "DirectShow video devices" line = false →
      pyIn "DirectShow audio devices" line = false →
      pyIn "\"" line = false →
      processLine st line = st) ∧
    (∀ st line name k, pyIn "DirectShow video devices" line = false →
      pyIn "DirectShow audio devices" line = false →
      (pyIn "Alternative name" line && lastTruthy st) = false →
      pyIn "\"" line = true →
      (pySplit '"' line.data).get? 1 = some name →
      targetOf st line = some k →
      (processLine st line).listOf k = st.listOf k ++ [⟨String.mk name, String.mk name⟩] ∧
      (processLine st line).last = some k) ∧
    (∀ st ld la name alt k,
      pyIn "DirectShow video devices" ld = false →
      pyIn "DirectShow audio devices" ld = false →
      (pyIn "Alternative name" ld && lastTruthy st) = false →
      pyIn "\"" ld = true →
      (pySplit '"' ld.data).get? 1 = some name →
      targetOf st ld = some k →
      pyIn "DirectShow video devices" la = false →
      pyIn "DirectShow audio devices" la = false →
      pyIn "Alternative name" la = true →
      pyIn "\"" la = true →
      (pySplit '"' la.data).get? 1 = some alt →
      (processLine (processLine st ld) la).listOf k =
        st.listOf k ++ [⟨String.mk name, String.mk alt⟩]) := by
  refine ⟨processLine_skip, ?_, ?_⟩
  · intro st line name k h0 h1 h2 hq hs ht
    rw [processLine_open st line name k h0 h1 h2 hq hs ht]
    exact ⟨appendDev_listOf st k (String.mk name), appendDev_last st k (String.mk name)⟩
  · intro st ld la name alt k h0 h1 h2 hq hs ht ha0 ha1 halt haq has
    rw [processLine_open st ld name k h0 h1 h2 hq hs ht]
    rw [processLine_alt (appendDev st k (String.mk name)) la alt k ha0 ha1 halt
      (lastTruthy_appendDev st k (String.mk name)) haq has
      (appendDev_last st k (String.mk name))]
    rw [listOf_withList, appendDev_listOf, setAltLast_append_singleton]

/-! ## C6 — Snapshot/Restore round-trip -/

theorem mkItems_length (cat : List Device) : (mkItems cat).length = cat.length := by
  simp [mkItems]

theorem mkItems_map_snd (cat : List Device) :
    (mkItems cat).map (·.2) = cat.map (·.alt) := by
  rw [mkItems, List.map_map]
  rw [show ((fun p : String × String => p.2) ∘
      (fun p : Nat × Device =>
        (p.2.name ++ "  [#" ++ toString (p.1 + 1) ++ "]", p.2.alt))) =
    ((fun d : Device => d.alt) ∘ Prod.snd) from rfl]
  rw [← List.map_map, List.enum_map_snd]

theorem mkItems_get? (cat : List Device) (i : Nat) :
    (mkItems cat).get? i =
      (cat.get? i).map (fun d => (d.name ++ "  [#" ++ toString (i + 1) ++ "]", d.alt)) := by
  simp only [mkItems, List.get?_eq_getElem?, List.getElem?_map, List.getElem?_enum]
  cases cat[i]? <;> rfl

theorem qtFindIndex_eq_none (p : (String × String) → Bool) (l : List (String × String))
    (h : ∀ x ∈ l, p x = false) : qtFindIndex p l = none := by
  induction l with
  | nil => rfl
  | cons x xs ih =>
    rw [qtFindIndex, if_neg (by simp [h x (List.mem_cons_self x xs)]),
      ih (fun y hy => h y (List.mem_cons_of_mem x hy))]
    rfl

theorem mkItems_label_ne (cat : List Device) (p : String × String)
    (hp : p ∈ mkItems cat) : p.1 ≠ "" := by
  simp only [mkItems, List.mem_map] at hp
  obtain ⟨q, _, hpe⟩ := hp
  intro he
  rw [← hpe] at he
  have hl := congrArg String.length he
  simp [String.length_append, show ("  [#" : String).length = 4 from rfl,
    show ("]" : String).length = 1 from rfl,
    show ("" : String).length = 0 from rfl] at hl

/-- Populating an empty combo from the catalog: the items come from the
catalog and item 0 becomes current when there is one. -/
theorem populateCombo_fresh (cat : List Device) :
    populateCombo true cat ⟨[], none⟩ =
      ⟨mkItems cat, if (mkItems cat).isEmpty then none else some 0⟩ := by
  rw [populateCombo]
  rw [if_neg (by simp)]
  dsimp only
  rw [qtFindIndex_eq_none _ _ (fun x hx => by
    have hne := mkItems_label_ne cat x hx
    simp [comboText, hne])]

/-- Re-populating a freshly populated combo from the same catalog is a
no-op (the selection is restored by exact label match). -/
theorem populateCombo_fresh_idem (cat : List Device) :
    populateCombo true cat (populateCombo true cat ⟨[], none⟩) =
      populateCombo true cat ⟨[], none⟩ := by
  rw [populateCombo_fresh]
  cases hcat : mkItems cat with
  | nil =>
    simp only [List.isEmpty_nil]
    rw [if_pos trivial]
    rw [populateCombo_fresh, hcat]
    simp only [List.isEmpty_nil]
    rw [if_pos trivial]
  | cons x xs =>
    simp only [List.isEmpty_cons]
    rw [if_neg Bool.false_ne_true]
    rw [populateCombo, if_neg (by simp)]
    dsimp only
    rw [hcat]
    simp [comboText, qtFindIndex]

/-- With pairwise-distinct userData, `qtFindIndex` on the userData finds
exactly the position the data came from. -/
theorem qtFindIndex_snd_nodup : ∀ (l : List (String × String)) (i : Nat) (lab a : String),
    l.get? i = some (lab, a) → (l.map (·.2)).Nodup →
    qtFindIndex (fun p => p.2 = a) l = some i := by
  intro l
  induction l with
  | nil => intro i lab a h; cases h
  | cons x xs ih =>
    intro i lab a hget hnodup
    rw [List.map_cons, List.nodup_cons] at hnodup
    match i, hget with
    | 0, hget =>
      cases hget
      simp [qtFindIndex]
    | i' + 1, hget =>
      have hmem : a ∈ xs.map (·.2) := by
        have hx : (lab, a) ∈ xs := List.get?_mem hget
        exact List.mem_map.mpr ⟨(lab, a), hx, rfl⟩
      have hx2 : ¬ (x.2 = a) := fun he => hnodup.1 (he ▸ hmem)
      rw [qtFindIndex, if_neg (by simpa using hx2),
        ih i' lab a hget hnodup.2]
      rfl

/-- A tab's device combo is consistent with a catalog when its items are
the populate result for that catalog and its current index is in range
(with no selection exactly for an empty catalog). -/
def PopConsistent (cat : List Device) (c : Combo) : Prop :=
  c.items = mkItems cat ∧ c.idx.elim (cat = []) (fun i => i < cat.length)

/-- A well-formed device catalog: pairwise-distinct, nonempty alt ids. -/
def GoodCat (cat : List Device) : Prop :=
  (cat.map (·.alt)).Nodup ∧ ∀ d ∈ cat, d.alt ≠ ""

/-- `load_config` never touches the streaming flag. -/
theorem load_config_is_streaming (ffx : Bool) (cat : Catalog) (t : Tab)
    (c : ChannelConfig) : (StreamTab.load_config ffx cat t c).is_streaming = t.is_streaming := by
  rw [StreamTab.load_config]
  cases c.video_device_alt <;> cases c.audio_device_alt <;> (repeat' split) <;> rfl

/-- The userData of a consistent combo's selection, and where `findData`
relocates it in a freshly populated combo: the same position. -/
theorem comboData_consistent_some (cat : List Device) (i : Nat) (hg : GoodCat cat)
    (hi : i < cat.length) :
    ∃ a, comboData ⟨mkItems cat, some i⟩ = some a ∧ a ≠ "" ∧
      ∀ idx0 : Option Nat, comboFindData ⟨mkItems cat, idx0⟩ a = some i := by
  obtain ⟨d, hd⟩ : ∃ d, cat.get? i = some d :=
    ⟨cat.get ⟨i, hi⟩, List.get?_eq_get hi⟩
  refine ⟨d.alt, ?_, hg.2 d (List.get?_mem hd), fun idx0 => ?_⟩
  · simp [comboData, ← List.get?_eq_getElem?, mkItems_get?, hd]
  · exact qtFindIndex_snd_nodup (mkItems cat) i
      (d.name ++ "  [#" ++ toString (i + 1) ++ "]") d.alt
      (by rw [mkItems_get?, hd]; rfl)
      (by rw [mkItems_map_snd]; exact hg.1)

/-- Restoring one snapshot record into a fresh tab over the catalogs the
snapshot is consistent with reproduces the tab, with the restore's name
and an idle streaming flag. -/
theorem load_config_fresh_roundtrip (vcat acat : List Device) (t : Tab) (nm : String)
    (hv : GoodCat vcat) (ha : GoodCat acat)
    (hpv : PopConsistent vcat t.video_combo)
    (hpa : PopConsistent acat t.audio_combo) :
    StreamTab.load_config true ⟨vcat, acat⟩ (StreamTab.new true ⟨vcat, acat⟩ nm)
      (StreamTab.get_config t) =
    { t with channel_name := nm, is_streaming := false } := by
  obtain ⟨nmT, vc, ac, vs, fr, vb, ab, au, st⟩ := t
  obtain ⟨itemsV, idxV⟩ := vc
  obtain ⟨itemsA, idxA⟩ := ac
  obtain ⟨hvi, hvidx⟩ := hpv
  obtain ⟨hai, haidx⟩ := hpa
  simp only at hvi hai hvidx haidx
  subst hvi hai
  rw [StreamTab.load_config, StreamTab.new]
  simp only [populateCombo_fresh_idem]
  simp only [populateCombo_fresh]
  simp only [StreamTab.get_config]
  cases idxV with
  | none =>
    have hvempty : vcat = [] := hvidx
    subst hvempty
    rw [show comboData (⟨mkItems ([] : List Device), none⟩ : Combo) =
      (none : Option String) from rfl]
    dsimp only
    cases idxA with
    | none =>
      have haempty : acat = [] := haidx
      subst haempty
      rfl
    | some j =>
      obtain ⟨a, hdata, hne, hfind⟩ := comboData_consistent_some acat j ha haidx
      rw [hdata]
      dsimp only
      rw [if_pos hne, hfind]
      rfl
  | some i =>
    obtain ⟨av, hdatav, hnev, hfindv⟩ := comboData_consistent_some vcat i hv hvidx
    rw [hdatav]
    cases idxA with
    | none =>
      have haempty : acat = [] := haidx
      subst haempty
      rw [show comboData (⟨mkItems ([] : List Device), none⟩ : Combo) =
        (none : Option String) from rfl]
      dsimp only
      rw [if_pos hnev, hfindv]
      rfl
    | some j =>
      obtain ⟨aa, hdataa, hnea, hfinda⟩ := comboData_consistent_some acat j ha haidx
      rw [hdataa]
      dsimp only
      rw [if_pos hnev, hfindv]
      dsimp only
      rw [if_pos hnea, hfinda]

/-- The restore pass, elementwise: with nonempty channel names, each
stream record is loaded into its own fresh tab. -/
theorem foldl_add_eq (cat : Catalog) (cfgs : List ChannelConfig) :
    ∀ (acc : List Tab), (∀ c ∈ cfgs, c.channel_name ≠ "") →
      cfgs.foldl (fun tabs c => StreamManagerApp.add_new_tab true cat tabs
        (some c.channel_name) (some c)) acc =
      acc ++ cfgs.map (fun c => StreamTab.load_config true cat
        (StreamTab.new true cat c.channel_name) c) := by
  induction cfgs with
  | nil => intro acc _; simp
  | cons c cs ih =>
    intro acc h
    rw [List.foldl_cons, List.map_cons]
    have hadd : StreamManagerApp.add_new_tab true cat acc (some c.channel_name) (some c) =
        acc ++ [StreamTab.load_config true cat (StreamTab.new true cat c.channel_name) c] := by
      rw [StreamManagerApp.add_new_tab]
      rw [if_neg (h c (List.mem_cons_self c cs))]
    rw [hadd, ih (acc ++ [StreamTab.load_config true cat
      (StreamTab.new true cat c.channel_name) c])
      (fun x hx => h x (List.mem_cons_of_mem c hx))]
    simp

open StreamManagerApp in
/-- C6 (amended): Snapshot followed by Restore into a fresh supervisor
reproduces the per-channel configs field-for-field, and every restored
channel starts idle — provided the catalogs are well formed (device alt
ids pairwise distinct and nonempty), every tab's combos are consistent
with the catalog used at restore, and every channel name is nonempty.
The counterexample shows the claim fails without these provisos. -/
theorem c6_restore_fidelity (vcat acat : List Device) (tabs : List Tab)
    (hv : GoodCat vcat) (ha : GoodCat acat)
    (ht : ∀ t ∈ tabs, PopConsistent vcat t.video_combo ∧
      PopConsistent acat t.audio_combo ∧ t.channel_name ≠ "") :
    (load_streams true ⟨vcat, acat⟩ (snapshot tabs)).map StreamTab.get_config =
      snapshot tabs ∧
    ∀ t' ∈ load_streams true ⟨vcat, acat⟩ (snapshot tabs), t'.is_streaming = false := by
  have hnames : ∀ c ∈ snapshot tabs, c.channel_name ≠ "" := by
    intro c hc
    rw [snapshot, List.mem_map] at hc
    obtain ⟨t, htm, rfl⟩ := hc
    exact (ht t htm).2.2
  have hls : load_streams true ⟨vcat, acat⟩ (snapshot tabs) =
      (snapshot tabs).map (fun c => StreamTab.load_config true ⟨vcat, acat⟩
        (StreamTab.new true ⟨vcat, acat⟩ c.channel_name) c) := by
    rw [load_streams]
    simpa using foldl_add_eq ⟨vcat, acat⟩ (snapshot tabs) [] hnames
  rw [hls]
  constructor
  · rw [snapshot, List.map_map, List.map_map]
    apply List.map_congr_left
    intro t htm
    show StreamTab.get_config (StreamTab.load_config true ⟨vcat, acat⟩
      (StreamTab.new true ⟨vcat, acat⟩ (StreamTab.get_config t).channel_name)
      (StreamTab.get_config t)) = StreamTab.get_config t
    rw [load_config_fresh_roundtrip vcat acat t (StreamTab.get_config t).channel_name
      hv ha (ht t htm).1 (ht t htm).2.1]
    rw [StreamTab.get_config, StreamTab.get_config]
  · intro t' ht'
    rw [List.mem_map] at ht'
    obtain ⟨c, -, rfl⟩ := ht'
    rw [load_config_is_streaming]
    rfl

open StreamManagerApp in
/-- Witness for C6 (amended): one channel over a one-camera catalog
round-trips to an identical config, restored idle. -/
theorem c6_restore_fidelity_witness :
    (load_streams true ⟨[⟨"Cam", "X"⟩], []⟩
      (snapshot [{ StreamTab.new true ⟨[⟨"Cam", "X"⟩], []⟩ "A" with
        video_combo := ⟨mkItems [⟨"Cam", "X"⟩], some 0⟩,
        audio_combo := ⟨mkItems [], none⟩ }])).map StreamTab.get_config =
      snapshot [{ StreamTab.new true ⟨[⟨"Cam", "X"⟩], []⟩ "A" with
        video_combo := ⟨mkItems [⟨"Cam", "X"⟩], some 0⟩,
        audio_combo := ⟨mkItems [], none⟩ }] ∧
    ∀ t' ∈ load_streams true ⟨[⟨"Cam", "X"⟩], []⟩
      (snapshot [{ StreamTab.new true ⟨[⟨"Cam", "X"⟩], []⟩ "A" with
        video_combo := ⟨mkItems [⟨"Cam", "X"⟩], some 0⟩,
        audio_combo := ⟨mkItems [], none⟩ }]), t'.is_streaming = false := by
  apply c6_restore_fidelity
  · exact ⟨by decide, by decide⟩
  · exact ⟨List.nodup_nil, by simp⟩
  · intro t htm
    rw [List.mem_singleton] at htm
    subst htm
    refine ⟨⟨rfl, ?_⟩, ⟨rfl, rfl⟩, by decide⟩
    show (0 : Nat) < 1
    decide

open StreamManagerApp in
/-- C6 (counterexample): with two devices sharing the alt id "X", a tab
whose selection is the second device snapshots to a config whose
`findData`-based restore lands on the first device: the restored config
differs from the snapshot (its video label is "CamA  [#1]" instead of
"CamB  [#2]"), so Snapshot/Restore is not field-for-field faithful as
claimed. -/
theorem c6_counterexample :
    (load_streams true ⟨[⟨"CamA", "X"⟩, ⟨"CamB", "X"⟩], []⟩
      (snapshot [{ StreamTab.new true ⟨[⟨"CamA", "X"⟩, ⟨"CamB", "X"⟩], []⟩ "A" with
        video_combo := ⟨[("CamA  [#1]", "X"), ("CamB  [#2]", "X")], some 1⟩ }])).map
        StreamTab.get_config ≠
      snapshot [{ StreamTab.new true ⟨[⟨"CamA", "X"⟩, ⟨"CamB", "X"⟩], []⟩ "A" with
        video_combo := ⟨[("CamA  [#1]", "X"), ("CamB  [#2]", "X")], some 1⟩ }] ∧
    ((load_streams true ⟨[⟨"CamA", "X"⟩, ⟨"CamB", "X"⟩], []⟩
      (snapshot [{ StreamTab.new true ⟨[⟨"CamA", "X"⟩, ⟨"CamB", "X"⟩], []⟩ "A" with
        video_combo := ⟨[("CamA  [#1]", "X"), ("CamB  [#2]", "X")], some 1⟩ }])).map
        StreamTab.get_config).map (fun c => c.video_device_label) = ["CamA  [#1]"] ∧
    (snapshot [{ StreamTab.new true ⟨[⟨"CamA", "X"⟩, ⟨"CamB", "X"⟩], []⟩ "A" with
        video_combo := ⟨[("CamA  [#1]", "X"), ("CamB  [#2]", "X")], some 1⟩ }]).map
      (fun c => c.video_device_label) = ["CamB  [#2]"] := by
  refine ⟨by decide, by decide, by decide⟩

/-- Witness for C7 (amended): a realistic dshow listing; the quoted
device line opens the record and the following alternative-name line
overwrites its alt. -/
theorem c7_parser_contract_witness :
    (processLine (processLine ⟨[], [], some .video, some .video⟩
        "[dshow]  \"Integrated Camera\"")
        "[dshow]     Alternative name \"@device_pnp_x\"").listOf .video =
      [⟨"Integrated Camera", "@device_pnp_x"⟩] := by
  exact c7_parser_contract.2.2 ⟨[], [], some .video, some .video⟩
    "[dshow]  \"Integrated Camera\"" "[dshow]     Alternative name \"@device_pnp_x\""
    "Integrated Camera".data "@device_pnp_x".data DevKind.video
    (by decide) (by decide) (by decide) (by decide) (by decide) (by decide)
    (by decide) (by decide) (by decide) (by decide) (by decide)

/-- C7 (counterexample): the claim says an alternative-name line
overwrites the most-recently-opened record *of the current section*; but
after a `(video)`-tagged device line inside the audio section, the
alternative name is applied to the video record while the current
section is still audio and its last record keeps its default alt. -/
theorem c7_counterexample :
    (listMediaDevices ["DirectShow audio devices", "\"Mic\" (audio)",
        "\"Cam\" (video)", "Alternative name \"X\""]).current = some DevKind.audio ∧
    (listMediaDevices ["DirectShow audio devices", "\"Mic\" (audio)",
        "\"Cam\" (video)", "Alternative name \"X\""]).audio = [⟨"Mic", "Mic"⟩] ∧
    (listMediaDevices ["DirectShow audio devices", "\"Mic\" (audio)",
        "\"Cam\" (video)", "Alternative name \"X\""]).video = [⟨"Cam", "X"⟩] := by
  decide

/-- Witness for C10: an empty framerate gives a command without
`-framerate` and with keyframe interval 50, while framerate "abc" makes
command building raise `ValueError`. -/
theorem c10_framerate_fallback_witness :
    (∃ cmd, build_ffmpeg_command true "ffmpeg.exe"
        { StreamTab.new true ⟨[], []⟩ "Channel 1" with
          framerate := "", video_bitrate := "800k" }
        "C:\\hls\\channel1" = Except.ok cmd ∧
      "-framerate" ∉ cmd ∧ ["-g", "50", "-keyint_min", "50"] <:+: cmd) ∧
    build_ffmpeg_command true "ffmpeg.exe"
        { StreamTab.new true ⟨[], []⟩ "Channel 1" with
          framerate := "abc", video_bitrate := "800k" }
        "C:\\hls\\channel1" = Except.error PyError.valueError := by
  constructor
  · exact (c10_framerate_fallback "ffmpeg.exe"
      { StreamTab.new true ⟨[], []⟩ "Channel 1" with
        framerate := "", video_bitrate := "800k" }
      "C:\\hls\\channel1" 800).1 rfl rfl (by decide) (by decide)
  · exact (c10_framerate_fallback "ffmpeg.exe"
      { StreamTab.new true ⟨[], []⟩ "Channel 1" with
        framerate := "abc", video_bitrate := "800k" }
      "C:\\hls\\channel1" 800).2 (by decide) rfl

end StreamManager
